import Mathlib

/-!
# Service worker of the wedding game (`static/sw.js`)

A shallow embedding of the three event handlers of `static/sw.js` (install,
activate, fetch) together with a sequential model of the two browser
facilities they call: Cache Storage and Fetch.

The handlers are transcribed from the script, promise chain by promise chain.
The browser facilities are not part of the script; they are modelled after the
Service Worker specification of the Cache interface, restricted to what the
script uses:

* a request is a URL and a method; a URL is written in full, or as a path
  beginning with `/`, which stands for that path at the origin of the worker
  (an `http` or `https` origin, as a service worker has no other);
* a response is a status, a body, and whether it carries the header `Vary: *`;
  it arrives whole (its body is read without error); the other headers and
  URL fragments are outside the model;
* cache storage is the list of named caches in creation order, a cache is the
  list of its request/response pairs in insertion order; whether the origin
  has used up its storage quota is a flag of the world;
* every promise settles before the next step runs (no interleaving of
  several events).
-/

namespace WeddingGame

/-! ## Constants of the script -/

/-- The constant `CACHE_NAME` (sw.js line 4). -/
def CACHE_NAME : String := "wedding-game-v1"

/-- The constant `ASSETS_TO_CACHE` (sw.js lines 5-12). -/
def ASSETS_TO_CACHE : List String :=
  [ "/",
    "/static/css/style.css",
    "/static/css/bootstrap.min.css",
    "/static/js/bootstrap.bundle.min.js",
    "/static/js/fuse.min.js",
    "/static/manifest.json" ]

/-! ## Values of the platform -/

/-- A request: its URL and its method. -/
structure Request where
  url : String
  method : String
  deriving DecidableEq

/-- A response: its status code, its body, and whether it carries a `Vary`
header with the field value `*` (it does not unless said so). -/
structure Response where
  status : Nat
  body : String
  varyStar : Bool := false
  deriving DecidableEq

/-- The getter `response.ok`: the status is in the range 200-299. -/
def Response.ok (r : Response) : Bool :=
  decide (200 ≤ r.status) && decide (r.status ≤ 299)

/-- The method `response.clone()`: a response with the same status, body and
headers. -/
def Response.clone (r : Response) : Response := r

/-- The value a promise rejects with. -/
inductive JsError where
  | networkError (detail : String)
  | typeError (detail : String)
  | quotaExceededError
  deriving DecidableEq

/-- The state a promise settles in. -/
inductive Settled (α : Type) where
  | fulfilled (value : α)
  | rejected (reason : JsError)
  deriving DecidableEq

/-- A cache: its request/response pairs in insertion order. -/
abbrev Cache := List (Request × Response)

/-- Cache storage: the named caches in creation order. -/
abbrev CacheStorage := List (String × Cache)

/-- What the network answers to a request: a response of any status, or a
failure, on which `fetch` rejects. -/
inductive FetchOutcome where
  | response (r : Response)
  | failure (reason : JsError)
  deriving DecidableEq

/-- The network, as seen by the worker. -/
abbrev Network := Request → FetchOutcome

/-- The part of the browser the worker acts on: cache storage, the two
lifecycle signals `self.skipWaiting()` and `self.clients.claim()`, and whether
the origin has used up its storage quota, in which case the platform refuses
every write to a cache. -/
structure World where
  storage : CacheStorage
  skipWaitingCalled : Bool
  clientsClaimed : Bool
  quotaExceeded : Bool
  deriving DecidableEq

/-- An asynchronous computation: run on a world, it settles and leaves a
world. -/
abbrev Async (α : Type) := World → Settled α × World

/-- The method `promise.then(onFulfilled)`: a fulfilled promise continues with
the callback, a rejected one stays rejected. -/
def Async.andThen {α β : Type} (p : Async α) (onFulfilled : α → Async β) : Async β :=
  fun w =>
    match p w with
    | (Settled.fulfilled v, w1) => onFulfilled v w1
    | (Settled.rejected e, w1) => (Settled.rejected e, w1)

/-- The method `promise.catch(onRejected)`: a rejected promise continues with
the callback, a fulfilled one stays fulfilled. -/
def Async.orCatch {α : Type} (p : Async α) (onRejected : JsError → Async α) : Async α :=
  fun w =>
    match p w with
    | (Settled.fulfilled v, w1) => (Settled.fulfilled v, w1)
    | (Settled.rejected e, w1) => onRejected e w1

/-- A promise that is not awaited: its effect on the world takes place, its
settlement is dropped. -/
def Async.detached {α : Type} (p : Async α) (w : World) : World := (p w).2

/-! ## String search -/

/-- Whether `needle` occurs in `hay` as a contiguous run of characters. -/
def includesChars (needle : List Char) : List Char → Bool
  | [] => needle.isPrefixOf []
  | c :: cs => needle.isPrefixOf (c :: cs) || includesChars needle cs

/-- The method `string.includes(searchString)`. -/
def includes (s searchString : String) : Bool :=
  includesChars searchString.toList s.toList

/-- The method `string.startsWith(searchString)`. -/
def startsWith (s searchString : String) : Bool :=
  searchString.toList.isPrefixOf s.toList

/-! ## Cache Storage and Fetch -/

/-- Whether the scheme of a URL, written as `request.url` gives it, is `http`
or `https`; a path beginning with `/` is relative to the origin of the worker,
whose scheme is one of the two. -/
def httpScheme (url : String) : Bool :=
  startsWith url "http://" || startsWith url "https://" || startsWith url "/"

/-- Whether a cached request answers a queried one (default options): both
are `GET` requests for the same URL. -/
def requestMatches (query key : Request) : Bool :=
  query.method == "GET" && key.method == "GET" && query.url == key.url

/-- The first response of a cache whose request answers the query. -/
def cacheMatch (c : Cache) (query : Request) : Option Response :=
  (c.find? (fun e => requestMatches query e.1)).map Prod.snd

/-- The entries of a cache after `put`: the entries answering the request are
replaced by the new pair. -/
def cachePutEntries (c : Cache) (request : Request) (response : Response) : Cache :=
  c.filter (fun e => !requestMatches request e.1) ++ [(request, response)]

/-- Whether storage has a cache of that name. -/
def hasCache (s : CacheStorage) (name : String) : Bool :=
  s.any (fun p => p.1 == name)

/-- The entries of the cache of that name; none when there is no such cache. -/
def cacheEntries (s : CacheStorage) (name : String) : Cache :=
  match s.find? (fun p => p.1 == name) with
  | some p => p.2
  | none => []

/-- Storage with the entries of the cache of that name replaced. -/
def setCacheEntries (s : CacheStorage) (name : String) (c : Cache) : CacheStorage :=
  s.map (fun p => if p.1 == name then (p.1, c) else p)

/-- Storage without the cache of that name. -/
def removeCache (s : CacheStorage) (name : String) : CacheStorage :=
  s.filter (fun p => !(p.1 == name))

/-- The call `fetch(request)`: fulfils with the response of the network,
whatever its status, and rejects when the network fails. -/
def fetch (net : Network) (request : Request) : Async Response :=
  fun w =>
    match net request with
    | FetchOutcome.response r => (Settled.fulfilled r, w)
    | FetchOutcome.failure e => (Settled.rejected e, w)

/-- The call `caches.open(name)`: creates the cache when storage has none of
that name, and fulfils with a handle on it (its name). -/
def cachesOpen (name : String) : Async String :=
  fun w =>
    if hasCache w.storage name then (Settled.fulfilled name, w)
    else (Settled.fulfilled name, { w with storage := w.storage ++ [(name, [])] })

/-- The call `caches.keys()`: the cache names in creation order. -/
def cachesKeys : Async (List String) :=
  fun w => (Settled.fulfilled (w.storage.map Prod.fst), w)

/-- The call `caches.delete(name)`: removes the cache and fulfils with whether
there was one. -/
def cachesDelete (name : String) : Async Bool :=
  fun w =>
    (Settled.fulfilled (hasCache w.storage name),
      { w with storage := removeCache w.storage name })

/-- The call `caches.match(request)`: the first match over the caches in
creation order, `undefined` (here `none`) when no cache has one. -/
def cachesMatch (request : Request) : Async (Option Response) :=
  fun w => (Settled.fulfilled (w.storage.findSome? (fun p => cacheMatch p.2 request)), w)

/-- The reason for which `cache.put(request, response)` rejects, if it does:
a `TypeError` for a request that is not `GET` or whose scheme is not `http` or
`https`, for a partial response (status 206) and for a response carrying
`Vary: *`; a `QuotaExceededError` when the storage quota is used up. -/
def putRejection (request : Request) (response : Response) (quotaExceeded : Bool) :
    Option JsError :=
  if request.method != "GET" || !httpScheme request.url then
    some (JsError.typeError "Request method or scheme is unsupported")
  else if response.status == 206 then
    some (JsError.typeError "Partial response is unsupported")
  else if response.varyStar then
    some (JsError.typeError "Vary header contains *")
  else if quotaExceeded then
    some JsError.quotaExceededError
  else none

/-- The call `cache.put(request, response)`: rejects for the reason
`putRejection` gives, and otherwise stores the pair. -/
def cachePut (cache : String) (request : Request) (response : Response) : Async Unit :=
  fun w =>
    match putRejection request response w.quotaExceeded with
    | some e => (Settled.rejected e, w)
    | none =>
      let entries := cachePutEntries (cacheEntries w.storage cache) request response
      (Settled.fulfilled (), { w with storage := setCacheEntries w.storage cache entries })

/-- The request `cache.addAll` makes of a listed URL: a `GET` request for it
(the resolution of the URL against the origin of the worker is left out). -/
def assetRequest (url : String) : Request := { url := url, method := "GET" }

/-- The responses `cache.addAll` collects: every URL is fetched with `GET`;
a URL whose scheme is not `http` or `https`, a failed fetch, a response that
is not ok, a partial response (status 206) or a response carrying `Vary: *`
makes the whole collection fail. -/
def fetchAssets (net : Network) : List String → Option (List (Request × Response))
  | [] => some []
  | url :: rest =>
    if !httpScheme (assetRequest url).url then none
    else
      match net (assetRequest url) with
      | FetchOutcome.failure _ => none
      | FetchOutcome.response r =>
        if r.ok && r.status != 206 && !r.varyStar then
          (fetchAssets net rest).map (fun l => (assetRequest url, r) :: l)
        else none

/-- The call `cache.addAll(urls)`: when every fetch gives a response the cache
accepts and the storage quota is not used up, all pairs are stored; otherwise
it rejects (with a `TypeError`, or a `QuotaExceededError`) and stores
nothing. -/
def cacheAddAll (net : Network) (cache : String) (urls : List String) : Async Unit :=
  fun w =>
    match fetchAssets net urls with
    | none => (Settled.rejected (JsError.typeError "Request failed"), w)
    | some pairs =>
      if w.quotaExceeded then (Settled.rejected JsError.quotaExceededError, w)
      else
        let entries :=
          pairs.foldl (fun c e => cachePutEntries c e.1 e.2) (cacheEntries w.storage cache)
        (Settled.fulfilled (), { w with storage := setCacheEntries w.storage cache entries })

/-- The call `self.skipWaiting()`. -/
def skipWaiting : Async Unit :=
  fun w => (Settled.fulfilled (), { w with skipWaitingCalled := true })

/-- The call `self.clients.claim()`. -/
def clientsClaim : Async Unit :=
  fun w => (Settled.fulfilled (), { w with clientsClaimed := true })

/-- The call `Promise.all(promises)`: every promise runs; the results are
collected in order, and the first rejection, if any, is the outcome. -/
def promiseAll {α : Type} : List (Async α) → Async (List α)
  | [] => fun w => (Settled.fulfilled [], w)
  | p :: rest => fun w =>
    match p w with
    | (Settled.fulfilled v, w1) =>
      match promiseAll rest w1 with
      | (Settled.fulfilled vs, w2) => (Settled.fulfilled (v :: vs), w2)
      | (Settled.rejected e, w2) => (Settled.rejected e, w2)
    | (Settled.rejected e, w1) => (Settled.rejected e, (promiseAll rest w1).2)

/-! ## The three handlers -/

/-- The promise the install handler passes to `event.waitUntil`
(sw.js lines 14-20). -/
def installHandler (net : Network) : Async Unit :=
  ((cachesOpen CACHE_NAME).andThen
    (fun cache => cacheAddAll net cache ASSETS_TO_CACHE)).andThen
    (fun _ => skipWaiting)

/-- The promise the activate handler passes to `event.waitUntil`
(sw.js lines 22-28). -/
def activateHandler : Async Unit :=
  (cachesKeys.andThen
    (fun keys =>
      promiseAll
        ((keys.filter (fun k => k != CACHE_NAME)).map (fun k => cachesDelete k)))).andThen
    (fun _ => clientsClaim)

/-- The promise the fetch handler passes to `event.respondWith`
(sw.js lines 31-44); the world it leaves is the one after the write to the
cache, which the handler does not await, has completed. -/
def fetchHandler (net : Network) (request : Request) : Async (Option Response) :=
  ((fetch net request).andThen
    (fun response => fun w =>
      if response.ok && includes request.url "/static/" then
        let clone := response.clone
        (Settled.fulfilled (some response),
          Async.detached
            ((cachesOpen CACHE_NAME).andThen (fun cache => cachePut cache request clone)) w)
      else
        (Settled.fulfilled (some response), w))).orCatch
    (fun _ => cachesMatch request)

/-! ## Auxiliary definitions for the statements -/

/-- Storage after `caches.open(name)`. -/
def openedStorage (s : CacheStorage) (name : String) : CacheStorage :=
  if hasCache s name then s else s ++ [(name, [])]

/-- Storage after `caches.open(CACHE_NAME)` and an accepted `put` of the pair
into that cache. -/
def writtenStorage (s : CacheStorage) (request : Request) (r : Response) : CacheStorage :=
  setCacheEntries (openedStorage s CACHE_NAME) CACHE_NAME
    (cachePutEntries (cacheEntries s CACHE_NAME) request r)

/-- A world with empty cache storage in which no lifecycle signal was given. -/
def freshWorld : World :=
  { storage := [], skipWaitingCalled := false, clientsClaimed := false,
    quotaExceeded := false }

/-- A world with empty cache storage whose origin has used up its storage
quota. -/
def fullWorld : World :=
  { storage := [], skipWaitingCalled := false, clientsClaimed := false,
    quotaExceeded := true }

/-- A world whose current cache already holds an entry that is not a listed
asset, as left by an earlier write-through of the fetch handler. -/
def usedWorld : World :=
  { storage :=
      [(CACHE_NAME,
        [({ url := "/static/img/rings.png", method := "GET" }, { status := 200, body := "png" })])],
    skipWaitingCalled := false,
    clientsClaimed := false,
    quotaExceeded := false }

/-- A world with a cache of an older version next to the current one. -/
def upgradedWorld : World :=
  { storage :=
      [("wedding-game-v0",
        [({ url := "/static/css/style.css", method := "GET" }, { status := 200, body := "old" })]),
       (CACHE_NAME,
        [({ url := "/static/css/style.css", method := "GET" }, { status := 200, body := "new" })])],
    skipWaitingCalled := true,
    clientsClaimed := false,
    quotaExceeded := false }

/-- A network that answers every request with the given status. -/
def netStatus (status : Nat) : Network :=
  fun _ => FetchOutcome.response { status := status, body := "body" }

/-- A network that answers one URL with the given status and every other
request with status 200. -/
def netStatusAt (url : String) (status : Nat) : Network :=
  fun request =>
    if request.url == url then FetchOutcome.response { status := status, body := "body" }
    else FetchOutcome.response { status := 200, body := "body" }

/-- A network that answers every request with status 200 and the header
`Vary: *`. -/
def netVaryStar : Network :=
  fun _ => FetchOutcome.response { status := 200, body := "body", varyStar := true }

/-- A network that answers one URL with status 200 and the header `Vary: *`,
and every other request with status 200 and no such header. -/
def netVaryStarAt (url : String) : Network :=
  fun request =>
    if request.url == url then
      FetchOutcome.response { status := 200, body := "body", varyStar := true }
    else FetchOutcome.response { status := 200, body := "body" }

/-- A network that fails on every request. -/
def netOffline : Network :=
  fun _ => FetchOutcome.failure (JsError.networkError "offline")

/-- A network that fails on one URL and answers every other request with
status 200. -/
def netOfflineAt (url : String) : Network :=
  fun request =>
    if request.url == url then FetchOutcome.failure (JsError.networkError "offline")
    else FetchOutcome.response { status := 200, body := "body" }

/-! ## Shared lemmas -/

theorem promiseAll_cachesDelete_run (names : List String) (w : World) :
    ∃ bs, promiseAll (names.map (fun k => cachesDelete k)) w =
      (Settled.fulfilled bs,
        { w with storage := w.storage.filter (fun p => !names.contains p.1) }) := by
  induction names generalizing w with
  | nil => exact ⟨[], by simp [promiseAll]⟩
  | cons k rest ih =>
    obtain ⟨bs, hbs⟩ := ih { w with storage := removeCache w.storage k }
    refine ⟨hasCache w.storage k :: bs, ?_⟩
    simp only [List.map_cons, promiseAll, cachesDelete]
    rw [hbs]
    simp only [removeCache, List.filter_filter]
    congr 2
    apply List.filter_congr
    intro p _
    rw [List.contains_cons]
    cases rest.contains p.1 <;> cases p.1 == k <;> rfl

theorem activateHandler_run (w : World) :
    activateHandler w =
      (Settled.fulfilled (),
        { storage := w.storage.filter (fun p => p.1 == CACHE_NAME),
          skipWaitingCalled := w.skipWaitingCalled,
          clientsClaimed := true,
          quotaExceeded := w.quotaExceeded }) := by
  obtain ⟨bs, hbs⟩ :=
    promiseAll_cachesDelete_run ((w.storage.map Prod.fst).filter (fun k => k != CACHE_NAME)) w
  simp only [activateHandler, Async.andThen, cachesKeys, hbs, clientsClaim]
  congr 2
  apply List.filter_congr
  intro p hp
  by_cases h : p.1 = CACHE_NAME
  · simp [h]
  · have : ∃ c, (p.1, c) ∈ w.storage := ⟨p.2, hp⟩
    simp [h, this]

theorem cachesOpen_run (name : String) (w : World) :
    cachesOpen name w =
      (Settled.fulfilled name, { w with storage := openedStorage w.storage name }) := by
  unfold cachesOpen openedStorage
  split <;> rfl

theorem cacheEntries_of_not_hasCache (s : CacheStorage) (name : String)
    (h : hasCache s name = false) : cacheEntries s name = [] := by
  unfold cacheEntries
  have : s.find? (fun p => p.1 == name) = none := by
    rw [List.find?_eq_none]
    intro p hp hpn
    have : hasCache s name = true := List.any_eq_true.mpr ⟨p, hp, hpn⟩
    simp [h] at this
  rw [this]

theorem hasCache_openedStorage (s : CacheStorage) (name : String) :
    hasCache (openedStorage s name) name = true := by
  unfold openedStorage
  split
  · assumption
  · simp [hasCache]

theorem cacheEntries_openedStorage (s : CacheStorage) (name : String) :
    cacheEntries (openedStorage s name) name = cacheEntries s name := by
  unfold openedStorage
  split
  · rfl
  · rename_i h
    have hf : hasCache s name = false := by simpa using h
    rw [cacheEntries_of_not_hasCache s name hf]
    have hnone : s.find? (fun p => p.1 == name) = none := by
      rw [List.find?_eq_none]
      intro p hp hpn
      have : hasCache s name = true := List.any_eq_true.mpr ⟨p, hp, hpn⟩
      simp [hf] at this
    simp [cacheEntries, List.find?_append, hnone]

theorem others_openedStorage (s : CacheStorage) (name : String) :
    (openedStorage s name).filter (fun p => p.1 != name) = s.filter (fun p => p.1 != name) := by
  unfold openedStorage
  split
  · rfl
  · simp [List.filter_append]

theorem cacheEntries_cons (p : String × Cache) (rest : CacheStorage) (name : String) :
    cacheEntries (p :: rest) name = if p.1 == name then p.2 else cacheEntries rest name := by
  unfold cacheEntries
  rw [List.find?_cons]
  cases p.1 == name <;> rfl

theorem setCacheEntries_cons (p : String × Cache) (rest : CacheStorage) (name : String)
    (c : Cache) :
    setCacheEntries (p :: rest) name c =
      (if p.1 == name then (p.1, c) else p) :: setCacheEntries rest name c := rfl

theorem cacheEntries_setCacheEntries (s : CacheStorage) (name : String) (c : Cache)
    (h : hasCache s name = true) : cacheEntries (setCacheEntries s name c) name = c := by
  induction s with
  | nil => simp [hasCache] at h
  | cons p rest ih =>
    rw [setCacheEntries_cons, cacheEntries_cons]
    cases hp : p.1 == name
    · have hrest : hasCache rest name = true := by
        simpa [hasCache, hp] using h
      simp [hp, ih hrest]
    · simp [hp]

theorem others_setCacheEntries (s : CacheStorage) (name : String) (c : Cache) :
    (setCacheEntries s name c).filter (fun p => p.1 != name) =
      s.filter (fun p => p.1 != name) := by
  induction s with
  | nil => rfl
  | cons p rest ih =>
    rw [setCacheEntries_cons]
    cases hp : p.1 == name
    · simp only [List.filter_cons, hp, bne, Bool.false_eq_true, if_false, Bool.not_false, if_true]
      exact congrArg _ ih
    · simp only [List.filter_cons, hp, bne, if_true, Bool.not_true, Bool.false_eq_true, if_false]
      exact ih

theorem fetchHandler_failure (net : Network) (request : Request) (w : World) (e : JsError)
    (h : net request = FetchOutcome.failure e) :
    fetchHandler net request w = cachesMatch request w := by
  simp [fetchHandler, Async.orCatch, Async.andThen, fetch, h]

theorem fetchHandler_response (net : Network) (request : Request) (w : World) (r : Response)
    (h : net request = FetchOutcome.response r) :
    fetchHandler net request w =
      (Settled.fulfilled (some r),
        if r.ok && includes request.url "/static/" then
          Async.detached
            ((cachesOpen CACHE_NAME).andThen (fun cache => cachePut cache request r.clone)) w
        else w) := by
  cases hc : r.ok && includes request.url "/static/" <;>
    simp [fetchHandler, Async.orCatch, Async.andThen, fetch, h, hc, Response.clone]

theorem writeThrough_run (request : Request) (r : Response) (w : World) :
    Async.detached
        ((cachesOpen CACHE_NAME).andThen (fun cache => cachePut cache request r)) w =
      if (putRejection request r w.quotaExceeded).isSome then
        { w with storage := openedStorage w.storage CACHE_NAME }
      else
        { w with storage := writtenStorage w.storage request r } := by
  simp only [Async.detached, Async.andThen, cachesOpen_run, cachePut,
    cacheEntries_openedStorage, writtenStorage]
  cases putRejection request r w.quotaExceeded <;> simp

theorem putRejection_eq_none_iff (request : Request) (r : Response) (quotaExceeded : Bool) :
    putRejection request r quotaExceeded = none ↔
      request.method = "GET" ∧ httpScheme request.url = true ∧ r.status ≠ 206 ∧
        r.varyStar = false ∧ quotaExceeded = false := by
  unfold putRejection
  constructor
  · intro h
    split_ifs at h with h1 h2 h3 h4
    simp only [Bool.or_eq_true, bne_iff_ne, ne_eq, Bool.not_eq_true', not_or, not_not,
      Bool.not_eq_false] at h1
    simp only [beq_iff_eq] at h2
    simp only [Bool.not_eq_true] at h3 h4
    exact ⟨h1.1, h1.2, h2, h3, h4⟩
  · rintro ⟨h1, h2, h3, h4, h5⟩
    simp [h1, h2, h3, h4, h5]

theorem requestMatches_self (request : Request) (h : request.method = "GET") :
    requestMatches request request = true := by
  simp [requestMatches, h]

theorem cacheMatch_cachePutEntries (c : Cache) (request : Request) (r : Response)
    (h : request.method = "GET") :
    cacheMatch (cachePutEntries c request r) request = some r := by
  have hnone :
      (c.filter (fun e => !requestMatches request e.1)).find?
        (fun e => requestMatches request e.1) = none := by
    rw [List.find?_eq_none]
    intro e he
    have := (List.mem_filter.mp he).2
    simpa using this
  simp [cacheMatch, cachePutEntries, List.find?_append, hnone, requestMatches_self request h]

theorem others_cachePutEntries (c : Cache) (request : Request) (r : Response)
    (h : request.method = "GET") :
    (cachePutEntries c request r).filter (fun e => !requestMatches request e.1) =
      c.filter (fun e => !requestMatches request e.1) := by
  simp [cachePutEntries, List.filter_append, List.filter_filter,
    requestMatches_self request h]

theorem any_map_apply {α β : Type} (f : α → β) (p : β → Bool) (l : List α) :
    (l.map f).any p = l.any (fun a => p (f a)) := by
  induction l with
  | nil => rfl
  | cons a rest ih => simp [List.any_cons, ih]

theorem fetchAssets_of_accepted (net : Network) (urls : List String)
    (hscheme : ∀ u ∈ urls, httpScheme (assetRequest u).url = true)
    (h : ∀ u ∈ urls, ∃ r, net (assetRequest u) = FetchOutcome.response r ∧
      r.ok = true ∧ r.status ≠ 206 ∧ r.varyStar = false) :
    ∃ pairs, fetchAssets net urls = some pairs ∧
      pairs.map Prod.fst = urls.map assetRequest ∧
      ∀ e ∈ pairs, net e.1 = FetchOutcome.response e.2 := by
  induction urls with
  | nil => exact ⟨[], rfl, rfl, by simp⟩
  | cons u rest ih =>
    obtain ⟨r, hr, hok, hst, hvary⟩ := h u (List.mem_cons_self u rest)
    have hsch := hscheme u (List.mem_cons_self u rest)
    obtain ⟨pairs, hp, hkeys, hnet⟩ :=
      ih (fun v hv => hscheme v (List.mem_cons_of_mem u hv))
        (fun v hv => h v (List.mem_cons_of_mem u hv))
    refine ⟨(assetRequest u, r) :: pairs, ?_, ?_, ?_⟩
    · simp [fetchAssets, hr, hok, hst, hvary, hsch, hp]
    · simp [hkeys]
    · intro e he
      rcases List.mem_cons.mp he with rfl | he
      · exact hr
      · exact hnet e he

theorem fetchAssets_of_failure (net : Network) (urls : List String)
    (h : ∃ u ∈ urls, ∃ e, net (assetRequest u) = FetchOutcome.failure e) :
    fetchAssets net urls = none := by
  induction urls with
  | nil => obtain ⟨u, hu, _⟩ := h; simp at hu
  | cons v rest ih =>
    obtain ⟨u, hu, e, he⟩ := h
    rcases List.mem_cons.mp hu with rfl | hu
    · simp [fetchAssets, he]
    · have hrest := ih ⟨u, hu, e, he⟩
      unfold fetchAssets
      split
      · rfl
      · split
        · rfl
        · split
          · simp [hrest]
          · rfl

theorem foldl_cachePutEntries (pairs : List (Request × Response)) (c : Cache)
    (hnd : (pairs.map (fun e => e.1.url)).Nodup) :
    pairs.foldl (fun c e => cachePutEntries c e.1 e.2) c =
      c.filter (fun x => !pairs.any (fun e => requestMatches e.1 x.1)) ++ pairs := by
  induction pairs generalizing c with
  | nil => simp
  | cons e rest ih =>
    have hnd2 : (rest.map (fun e => e.1.url)).Nodup := (List.nodup_cons.mp hnd).2
    have hfresh : rest.any (fun q => requestMatches q.1 e.1) = false := by
      rw [List.any_eq_false]
      intro q hq hm
      have hurl : q.1.url = e.1.url := by
        simp only [requestMatches, Bool.and_eq_true, beq_iff_eq] at hm
        exact hm.2
      have hmem : e.1.url ∈ rest.map (fun e => e.1.url) :=
        List.mem_map.mpr ⟨q, hq, hurl⟩
      exact (List.nodup_cons.mp hnd).1 hmem
    rw [List.foldl_cons, ih _ hnd2]
    simp only [cachePutEntries, List.filter_append, List.filter_filter, List.filter_cons,
      List.filter_nil, hfresh, Bool.not_false, if_true, List.append_assoc,
      List.singleton_append, List.any_cons]
    congr 1
    apply List.filter_congr
    intro x _
    cases requestMatches e.1 x.1 <;> cases rest.any (fun q => requestMatches q.1 x.1) <;> rfl

theorem installHandler_accepted (net : Network) (w : World)
    (h : ∀ u ∈ ASSETS_TO_CACHE, ∃ r, net (assetRequest u) = FetchOutcome.response r ∧
      r.ok = true ∧ r.status ≠ 206 ∧ r.varyStar = false)
    (hquota : w.quotaExceeded = false) :
    ∃ pairs, pairs.map Prod.fst = ASSETS_TO_CACHE.map assetRequest ∧
      (∀ e ∈ pairs, net e.1 = FetchOutcome.response e.2) ∧
      (installHandler net w).1 = Settled.fulfilled () ∧
      (installHandler net w).2.skipWaitingCalled = true ∧
      cacheEntries (installHandler net w).2.storage CACHE_NAME =
        (cacheEntries w.storage CACHE_NAME).filter
          (fun x => !ASSETS_TO_CACHE.any (fun u => requestMatches (assetRequest u) x.1)) ++
          pairs := by
  obtain ⟨pairs, hp, hkeys, hnet⟩ :=
    fetchAssets_of_accepted net ASSETS_TO_CACHE (by decide) h
  have hnd : (pairs.map (fun e => e.1.url)).Nodup := by
    have : pairs.map (fun e => e.1.url) = (pairs.map Prod.fst).map Request.url := by
      simp [List.map_map, Function.comp_def]
    rw [this, hkeys]
    decide
  have hany : ∀ x : Request × Response,
      pairs.any (fun e => requestMatches e.1 x.1) =
        ASSETS_TO_CACHE.any (fun u => requestMatches (assetRequest u) x.1) := by
    intro x
    have h1 := any_map_apply Prod.fst (fun q => requestMatches q x.1) pairs
    have h2 := any_map_apply assetRequest (fun q => requestMatches q x.1) ASSETS_TO_CACHE
    rw [← h1, hkeys, h2]
  refine ⟨pairs, hkeys, hnet, ?_, ?_, ?_⟩
  · simp [installHandler, Async.andThen, cachesOpen_run, cacheAddAll, hp, skipWaiting, hquota]
  · simp [installHandler, Async.andThen, cachesOpen_run, cacheAddAll, hp, skipWaiting, hquota]
  · simp only [installHandler, Async.andThen, cachesOpen_run, cacheAddAll, hp, skipWaiting,
      hquota, Bool.false_eq_true, if_false]
    rw [cacheEntries_setCacheEntries _ _ _ (hasCache_openedStorage _ _),
      cacheEntries_openedStorage, foldl_cachePutEntries pairs _ hnd]
    congr 1
    apply List.filter_congr
    intro x _
    rw [hany x]

theorem installHandler_failure (net : Network) (w : World)
    (h : ∃ u ∈ ASSETS_TO_CACHE, ∃ e, net (assetRequest u) = FetchOutcome.failure e) :
    installHandler net w =
      (Settled.rejected (JsError.typeError "Request failed"),
        { w with storage := openedStorage w.storage CACHE_NAME }) := by
  have hnone := fetchAssets_of_failure net ASSETS_TO_CACHE h
  simp [installHandler, Async.andThen, cachesOpen_run, cacheAddAll, hnone]

theorem cacheMatch_eq_some (c : Cache) (request : Request) (r : Response)
    (h : cacheMatch c request = some r) :
    ∃ en ∈ c, requestMatches request en.1 = true ∧ en.2 = r := by
  unfold cacheMatch at h
  cases hf : c.find? (fun e => requestMatches request e.1) with
  | none => simp [hf] at h
  | some en =>
    rw [hf] at h
    have hm := List.find?_some hf
    refine ⟨en, List.mem_of_find?_eq_some hf, hm, ?_⟩
    simpa using h

theorem cacheMatch_eq_none (c : Cache) (request : Request) :
    cacheMatch c request = none ↔ ∀ en ∈ c, requestMatches request en.1 = false := by
  simp [cacheMatch]

/-! ## The activate handler -/

/-- Claim C1: after the activate handler completes, every cache name present
in storage equals `wedding-game-v1`: a name that `caches.keys()` returned and
that differs from `CACHE_NAME` is no longer there. -/
theorem C1_activate_leaves_only_current_name (w : World) (name : String)
    (h : name ∈ (activateHandler w).2.storage.map Prod.fst) :
    (activateHandler w).1 = Settled.fulfilled () ∧ name = CACHE_NAME := by
  rw [activateHandler_run] at h ⊢
  refine ⟨rfl, ?_⟩
  obtain ⟨p, hp, rfl⟩ := List.mem_map.mp h
  simpa using (List.mem_filter.mp hp).2

theorem C1_activate_leaves_only_current_name_witness :
    CACHE_NAME ∈ (activateHandler upgradedWorld).2.storage.map Prod.fst ∧
      ((activateHandler upgradedWorld).1 = Settled.fulfilled () ∧ CACHE_NAME = CACHE_NAME) :=
  ⟨by decide, C1_activate_leaves_only_current_name upgradedWorld CACHE_NAME (by decide)⟩

/-- Claim C9: the activate handler leaves the cache named `wedding-game-v1`
untouched: it exists afterwards exactly when it existed before, with the same
entries, and activating twice gives the same world as activating once. -/
theorem C9_activate_keeps_current_cache (w : World) :
    (activateHandler w).2.storage.filter (fun p => p.1 == CACHE_NAME) =
        w.storage.filter (fun p => p.1 == CACHE_NAME) ∧
      hasCache (activateHandler w).2.storage CACHE_NAME = hasCache w.storage CACHE_NAME ∧
      cacheEntries (activateHandler w).2.storage CACHE_NAME =
        cacheEntries w.storage CACHE_NAME ∧
      (activateHandler (activateHandler w).2).2 = (activateHandler w).2 := by
  simp only [activateHandler_run]
  refine ⟨?_, ?_, ?_, ?_⟩
  · simp [List.filter_filter]
  · simp only [hasCache, List.any_filter]
    congr 1
    funext p
    cases p.1 == CACHE_NAME <;> rfl
  · simp only [cacheEntries, List.find?_filter]
    congr 1
    congr 1
    funext p
    cases p.1 == CACHE_NAME <;> rfl
  · simp [List.filter_filter]

/-! ## The fetch handler -/

/-- Claim C3: when the network fetch of a request fails and cache storage
holds an entry matching the request, the fetch handler responds with the
response of such an entry, not with an error. -/
theorem C3_fetch_failure_served_from_cache (net : Network) (request : Request) (w : World)
    (e : JsError) (hfail : net request = FetchOutcome.failure e)
    (hentry : ∃ p ∈ w.storage, ∃ en ∈ p.2, requestMatches request en.1 = true) :
    ∃ r, (fetchHandler net request w).1 = Settled.fulfilled (some r) ∧
      (fetchHandler net request w).1 ≠ Settled.rejected e ∧
      w.storage.findSome? (fun p => cacheMatch p.2 request) = some r ∧
      ∃ p ∈ w.storage, ∃ en ∈ p.2, requestMatches request en.1 = true ∧ en.2 = r := by
  rw [fetchHandler_failure net request w e hfail]
  cases hm : w.storage.findSome? (fun p => cacheMatch p.2 request) with
  | none =>
    obtain ⟨p, hp, en, hen, hmatch⟩ := hentry
    have hnone := (cacheMatch_eq_none p.2 request).mp
      (List.findSome?_eq_none_iff.mp hm p hp) en hen
    simp [hmatch] at hnone
  | some r =>
    obtain ⟨p, hp, hpr⟩ := List.exists_of_findSome?_eq_some hm
    obtain ⟨en, hen, hmatch, hr⟩ := cacheMatch_eq_some p.2 request r hpr
    exact ⟨r, by simp [cachesMatch, hm], by simp [cachesMatch, hm], rfl,
      p, hp, en, hen, hmatch, hr⟩

theorem C3_fetch_failure_served_from_cache_witness :
    (netOffline { url := "/static/img/rings.png", method := "GET" } =
        FetchOutcome.failure (JsError.networkError "offline") ∧
      ∃ p ∈ usedWorld.storage, ∃ en ∈ p.2,
        requestMatches { url := "/static/img/rings.png", method := "GET" } en.1 = true) ∧
    ∃ r, (fetchHandler netOffline { url := "/static/img/rings.png", method := "GET" }
          usedWorld).1 = Settled.fulfilled (some r) ∧
      (fetchHandler netOffline { url := "/static/img/rings.png", method := "GET" }
          usedWorld).1 ≠ Settled.rejected (JsError.networkError "offline") ∧
      usedWorld.storage.findSome?
        (fun p => cacheMatch p.2 { url := "/static/img/rings.png", method := "GET" }) = some r ∧
      ∃ p ∈ usedWorld.storage, ∃ en ∈ p.2,
        requestMatches { url := "/static/img/rings.png", method := "GET" } en.1 = true ∧
          en.2 = r :=
  ⟨⟨rfl, by decide⟩,
    C3_fetch_failure_served_from_cache netOffline
      { url := "/static/img/rings.png", method := "GET" } usedWorld
      (JsError.networkError "offline") rfl (by decide)⟩

/-- Claim C4, as amended: when the network fetch of a request fails and cache
storage holds no entry matching the request, the promise the fetch handler
passes to `respondWith` is fulfilled with `undefined`, the empty result of
`caches.match`; the rejection of `fetch` is dropped by the `catch` callback,
and cache storage is unchanged. -/
theorem C4_fetch_failure_without_entry_gives_undefined (net : Network) (request : Request)
    (w : World) (e : JsError) (hfail : net request = FetchOutcome.failure e)
    (hnone : ∀ p ∈ w.storage, ∀ en ∈ p.2, requestMatches request en.1 = false) :
    fetchHandler net request w = (Settled.fulfilled none, w) := by
  rw [fetchHandler_failure net request w e hfail]
  have : w.storage.findSome? (fun p => cacheMatch p.2 request) = none :=
    List.findSome?_eq_none_iff.mpr
      (fun p hp => (cacheMatch_eq_none p.2 request).mpr (hnone p hp))
  simp [cachesMatch, this]

theorem C4_fetch_failure_without_entry_gives_undefined_witness :
    (netOffline { url := "/api/guess", method := "POST" } =
        FetchOutcome.failure (JsError.networkError "offline") ∧
      ∀ p ∈ usedWorld.storage, ∀ en ∈ p.2,
        requestMatches { url := "/api/guess", method := "POST" } en.1 = false) ∧
    fetchHandler netOffline { url := "/api/guess", method := "POST" } usedWorld =
      (Settled.fulfilled none, usedWorld) :=
  ⟨⟨rfl, by decide⟩,
    C4_fetch_failure_without_entry_gives_undefined netOffline
      { url := "/api/guess", method := "POST" } usedWorld
      (JsError.networkError "offline") rfl (by decide)⟩

/-- Claim C4, as stated, fails: with the network down and empty cache storage
the promise passed to `respondWith` is fulfilled with `undefined`; it is not
rejected with the failure `fetch` raised. -/
theorem C4_counterexample :
    netOffline { url := "/static/css/style.css", method := "GET" } =
        FetchOutcome.failure (JsError.networkError "offline") ∧
      freshWorld.storage = [] ∧
      (fetchHandler netOffline { url := "/static/css/style.css", method := "GET" }
          freshWorld).1 = Settled.fulfilled none ∧
      (fetchHandler netOffline { url := "/static/css/style.css", method := "GET" }
          freshWorld).1 ≠ Settled.rejected (JsError.networkError "offline") := by
  decide

/-- Claim C6: when the network fetch of a request returns a response, the
fetch handler responds with exactly that response, whatever its status,
whatever the URL of the request and whatever cache storage holds. -/
theorem C6_fetch_network_first (net : Network) (request : Request) (w : World)
    (r : Response) (h : net request = FetchOutcome.response r) :
    (fetchHandler net request w).1 = Settled.fulfilled (some r) := by
  rw [fetchHandler_response net request w r h]

theorem C6_fetch_network_first_witness :
    netStatus 404 { url := "/static/img/rings.png", method := "GET" } =
        FetchOutcome.response { status := 404, body := "body" } ∧
      (fetchHandler (netStatus 404) { url := "/static/img/rings.png", method := "GET" }
          usedWorld).1 = Settled.fulfilled (some { status := 404, body := "body" }) :=
  ⟨rfl,
    C6_fetch_network_first (netStatus 404) { url := "/static/img/rings.png", method := "GET" }
      usedWorld { status := 404, body := "body" } rfl⟩

/-- Claim C7: when the network fetch fails, or its response is not ok, or the
URL of the request does not contain `/static/`, the fetch handler leaves cache
storage as it was: no cache is created, written or deleted. -/
theorem C7_fetch_without_write_keeps_storage (net : Network) (request : Request) (w : World)
    (h : (∃ e, net request = FetchOutcome.failure e) ∨
      ∃ r, net request = FetchOutcome.response r ∧
        (r.ok = false ∨ includes request.url "/static/" = false)) :
    (fetchHandler net request w).2 = w := by
  rcases h with ⟨e, he⟩ | ⟨r, hr, hcond⟩
  · rw [fetchHandler_failure net request w e he]
    rfl
  · rw [fetchHandler_response net request w r hr]
    have : (r.ok && includes request.url "/static/") = false := by
      rcases hcond with h1 | h1 <;> simp [h1]
    simp [this]

theorem C7_fetch_without_write_keeps_storage_witness :
    ((∃ e, netStatus 200 { url := "/api/guess", method := "GET" } = FetchOutcome.failure e) ∨
      ∃ r, netStatus 200 { url := "/api/guess", method := "GET" } = FetchOutcome.response r ∧
        (r.ok = false ∨ includes "/api/guess" "/static/" = false)) ∧
    (fetchHandler (netStatus 200) { url := "/api/guess", method := "GET" } freshWorld).2 =
      freshWorld :=
  ⟨Or.inr ⟨{ status := 200, body := "body" }, rfl, Or.inr (by decide)⟩,
    C7_fetch_without_write_keeps_storage (netStatus 200)
      { url := "/api/guess", method := "GET" } freshWorld
      (Or.inr ⟨{ status := 200, body := "body" }, rfl, Or.inr (by decide)⟩)⟩

/-- Claim C5, as amended: for every request whose URL contains `/static/` and
whose network fetch returns an ok response, if `cache.put` accepts the pair
(the request is a `GET` request with an `http` or `https` URL, the response is
not a partial one of status 206 and carries no `Vary: *`, and the storage
quota is not used up), then once the fetch handler and its cache write have
completed the cache named `wedding-game-v1` exists and contains an entry
matching the request, holding that response. -/
theorem C5_fetch_static_ok_response_is_cached (net : Network) (request : Request)
    (w : World) (r : Response) (hnet : net request = FetchOutcome.response r)
    (hok : r.ok = true) (hurl : includes request.url "/static/" = true)
    (hget : request.method = "GET") (hscheme : httpScheme request.url = true)
    (hstatus : r.status ≠ 206) (hvary : r.varyStar = false)
    (hquota : w.quotaExceeded = false) :
    hasCache (fetchHandler net request w).2.storage CACHE_NAME = true ∧
      (request, r) ∈ cacheEntries (fetchHandler net request w).2.storage CACHE_NAME ∧
      cacheMatch (cacheEntries (fetchHandler net request w).2.storage CACHE_NAME) request =
        some r := by
  have haccept : putRejection request r w.quotaExceeded = none :=
    (putRejection_eq_none_iff request r w.quotaExceeded).mpr
      ⟨hget, hscheme, hstatus, hvary, hquota⟩
  have hrun : (fetchHandler net request w).2.storage = writtenStorage w.storage request r := by
    rw [fetchHandler_response net request w r hnet, writeThrough_run]
    simp [hok, hurl, haccept, Response.clone]
  have hentries :
      cacheEntries (writtenStorage w.storage request r) CACHE_NAME =
        cachePutEntries (cacheEntries w.storage CACHE_NAME) request r :=
    cacheEntries_setCacheEntries _ _ _ (hasCache_openedStorage _ _)
  rw [hrun, hentries]
  refine ⟨?_, ?_, cacheMatch_cachePutEntries _ request r hget⟩
  · have hopen := hasCache_openedStorage w.storage CACHE_NAME
    simp only [hasCache, List.any_eq_true] at hopen ⊢
    obtain ⟨p, hp, hname⟩ := hopen
    refine ⟨(p.1, cachePutEntries (cacheEntries w.storage CACHE_NAME) request r), ?_, hname⟩
    exact List.mem_map.mpr ⟨p, hp, by simp [hname]⟩
  · simp [cachePutEntries]

theorem C5_fetch_static_ok_response_is_cached_witness :
    (netStatus 200 { url := "https://wedding.local/static/img/rings.png", method := "GET" } =
        FetchOutcome.response { status := 200, body := "body" } ∧
      Response.ok { status := 200, body := "body" } = true ∧
      includes "https://wedding.local/static/img/rings.png" "/static/" = true ∧
      Request.method { url := "https://wedding.local/static/img/rings.png", method := "GET" } =
        "GET" ∧
      httpScheme "https://wedding.local/static/img/rings.png" = true ∧
      (200 : Nat) ≠ 206 ∧
      Response.varyStar { status := 200, body := "body" } = false ∧
      usedWorld.quotaExceeded = false) ∧
    (hasCache (fetchHandler (netStatus 200)
        { url := "https://wedding.local/static/img/rings.png", method := "GET" }
        usedWorld).2.storage CACHE_NAME = true ∧
      (({ url := "https://wedding.local/static/img/rings.png", method := "GET" } : Request),
          ({ status := 200, body := "body" } : Response)) ∈
        cacheEntries (fetchHandler (netStatus 200)
          { url := "https://wedding.local/static/img/rings.png", method := "GET" }
          usedWorld).2.storage CACHE_NAME ∧
      cacheMatch (cacheEntries (fetchHandler (netStatus 200)
          { url := "https://wedding.local/static/img/rings.png", method := "GET" }
          usedWorld).2.storage CACHE_NAME)
          { url := "https://wedding.local/static/img/rings.png", method := "GET" } =
        some { status := 200, body := "body" }) :=
  ⟨⟨rfl, by decide, by decide, rfl, by decide, by decide, rfl, rfl⟩,
    C5_fetch_static_ok_response_is_cached (netStatus 200)
      { url := "https://wedding.local/static/img/rings.png", method := "GET" } usedWorld
      { status := 200, body := "body" } rfl (by decide) (by decide) rfl (by decide)
      (by decide) rfl rfl⟩

/-- Claim C5, as stated, fails: a request for a `/static/` URL whose fetch
returns a response leaves the cache named `wedding-game-v1` without any entry
when the response is not ok (404), when the request is not a `GET` request,
when the response is a partial one (206), when the response carries
`Vary: *`, when the scheme of the URL is not `http` or `https`, and when the
storage quota is used up. -/
theorem C5_counterexample :
    (includes "/static/img/missing.png" "/static/" = true ∧
      netStatus 404 { url := "/static/img/missing.png", method := "GET" } =
        FetchOutcome.response { status := 404, body := "body" } ∧
      cacheEntries (fetchHandler (netStatus 404)
        { url := "/static/img/missing.png", method := "GET" } freshWorld).2.storage
        CACHE_NAME = []) ∧
    (includes "/static/upload" "/static/" = true ∧
      netStatus 200 { url := "/static/upload", method := "POST" } =
        FetchOutcome.response { status := 200, body := "body" } ∧
      cacheEntries (fetchHandler (netStatus 200)
        { url := "/static/upload", method := "POST" } freshWorld).2.storage
        CACHE_NAME = []) ∧
    (includes "/static/audio/march.mp3" "/static/" = true ∧
      netStatus 206 { url := "/static/audio/march.mp3", method := "GET" } =
        FetchOutcome.response { status := 206, body := "body" } ∧
      cacheEntries (fetchHandler (netStatus 206)
        { url := "/static/audio/march.mp3", method := "GET" } freshWorld).2.storage
        CACHE_NAME = []) ∧
    (includes "/static/a.css" "/static/" = true ∧
      netVaryStar { url := "/static/a.css", method := "GET" } =
        FetchOutcome.response { status := 200, body := "body", varyStar := true } ∧
      cacheEntries (fetchHandler netVaryStar
        { url := "/static/a.css", method := "GET" } freshWorld).2.storage
        CACHE_NAME = []) ∧
    (includes "chrome-extension://abcdefgh/static/inject.js" "/static/" = true ∧
      netStatus 200 { url := "chrome-extension://abcdefgh/static/inject.js", method := "GET" } =
        FetchOutcome.response { status := 200, body := "body" } ∧
      cacheEntries (fetchHandler (netStatus 200)
        { url := "chrome-extension://abcdefgh/static/inject.js", method := "GET" }
        freshWorld).2.storage CACHE_NAME = []) ∧
    (includes "/static/css/style.css" "/static/" = true ∧
      netStatus 200 { url := "/static/css/style.css", method := "GET" } =
        FetchOutcome.response { status := 200, body := "body" } ∧
      fullWorld.quotaExceeded = true ∧
      cacheEntries (fetchHandler (netStatus 200)
        { url := "/static/css/style.css", method := "GET" } fullWorld).2.storage
        CACHE_NAME = []) := by
  decide

/-- Claim C10: for every request with an ok network response and a URL
containing `/static/`, the fetch handler changes cache storage only at the
entry keyed by that request inside the cache named `wedding-game-v1`: the
other caches, and the entries of that cache that do not match the request, are
the same before and after. -/
theorem C10_fetch_write_through_frame (net : Network) (request : Request) (w : World)
    (r : Response) (hnet : net request = FetchOutcome.response r) (hok : r.ok = true)
    (hurl : includes request.url "/static/" = true) :
    (fetchHandler net request w).2.storage.filter (fun p => p.1 != CACHE_NAME) =
        w.storage.filter (fun p => p.1 != CACHE_NAME) ∧
      (cacheEntries (fetchHandler net request w).2.storage CACHE_NAME).filter
          (fun en => !requestMatches request en.1) =
        (cacheEntries w.storage CACHE_NAME).filter (fun en => !requestMatches request en.1) := by
  rw [fetchHandler_response net request w r hnet, writeThrough_run]
  simp only [hok, hurl, Bool.and_self, if_true, Response.clone]
  cases hput : putRejection request r w.quotaExceeded with
  | some e =>
    simp only [Option.isSome_some, if_true]
    exact ⟨others_openedStorage _ _, by rw [cacheEntries_openedStorage]⟩
  | none =>
    have hget : request.method = "GET" :=
      ((putRejection_eq_none_iff request r w.quotaExceeded).mp hput).1
    simp only [Option.isSome_none, Bool.false_eq_true, if_false, writtenStorage]
    refine ⟨?_, ?_⟩
    · rw [others_setCacheEntries, others_openedStorage]
    · rw [cacheEntries_setCacheEntries _ _ _ (hasCache_openedStorage _ _),
        others_cachePutEntries _ _ _ hget]

theorem C10_fetch_write_through_frame_witness :
    (netStatus 200 { url := "/static/css/style.css", method := "GET" } =
        FetchOutcome.response { status := 200, body := "body" } ∧
      Response.ok { status := 200, body := "body" } = true ∧
      includes "/static/css/style.css" "/static/" = true) ∧
    ((fetchHandler (netStatus 200) { url := "/static/css/style.css", method := "GET" }
          upgradedWorld).2.storage.filter (fun p => p.1 != CACHE_NAME) =
        upgradedWorld.storage.filter (fun p => p.1 != CACHE_NAME) ∧
      (cacheEntries (fetchHandler (netStatus 200)
          { url := "/static/css/style.css", method := "GET" } upgradedWorld).2.storage
          CACHE_NAME).filter
          (fun en => !requestMatches { url := "/static/css/style.css", method := "GET" } en.1) =
        (cacheEntries upgradedWorld.storage CACHE_NAME).filter
          (fun en =>
            !requestMatches { url := "/static/css/style.css", method := "GET" } en.1)) :=
  ⟨⟨rfl, by decide, by decide⟩,
    C10_fetch_write_through_frame (netStatus 200)
      { url := "/static/css/style.css", method := "GET" } upgradedWorld
      { status := 200, body := "body" } rfl (by decide) (by decide)⟩

/-! ## The install handler -/

/-- Claim C2, as amended: for every initial cache storage whose quota is not
used up and in which each of the six asset fetches returns an ok response that
`cache.addAll` accepts (not a partial one of status 206, and without
`Vary: *`), the install handler completes, and the entries of the cache named
`wedding-game-v1` are then the entries it held before the install that match
none of the six paths of `ASSETS_TO_CACHE`, followed by one entry for each of
the six paths, in the order of the list, holding the response fetched for it;
when the cache was absent or empty before, its entries are exactly the six
paths. -/
theorem C2_install_caches_listed_assets (net : Network) (w : World)
    (h : ∀ u ∈ ASSETS_TO_CACHE, ∃ r, net (assetRequest u) = FetchOutcome.response r ∧
      r.ok = true ∧ r.status ≠ 206 ∧ r.varyStar = false)
    (hquota : w.quotaExceeded = false) :
    (installHandler net w).1 = Settled.fulfilled () ∧
      ∃ pairs,
        pairs.map Prod.fst = ASSETS_TO_CACHE.map assetRequest ∧
        (∀ en ∈ pairs, net en.1 = FetchOutcome.response en.2) ∧
        cacheEntries (installHandler net w).2.storage CACHE_NAME =
          (cacheEntries w.storage CACHE_NAME).filter
            (fun x => !ASSETS_TO_CACHE.any (fun u => requestMatches (assetRequest u) x.1)) ++
            pairs ∧
        (cacheEntries w.storage CACHE_NAME = [] →
          (cacheEntries (installHandler net w).2.storage CACHE_NAME).map Prod.fst =
            ASSETS_TO_CACHE.map assetRequest) := by
  obtain ⟨pairs, hkeys, hnet, hdone, _, hentries⟩ := installHandler_accepted net w h hquota
  refine ⟨hdone, pairs, hkeys, hnet, hentries, ?_⟩
  intro hempty
  rw [hentries, hempty, List.filter_nil, List.nil_append, hkeys]

theorem C2_install_caches_listed_assets_witness :
    ((∀ u ∈ ASSETS_TO_CACHE, ∃ r, netStatus 200 (assetRequest u) = FetchOutcome.response r ∧
        r.ok = true ∧ r.status ≠ 206 ∧ r.varyStar = false) ∧
      usedWorld.quotaExceeded = false) ∧
    ((installHandler (netStatus 200) usedWorld).1 = Settled.fulfilled () ∧
      ∃ pairs,
        pairs.map Prod.fst = ASSETS_TO_CACHE.map assetRequest ∧
        (∀ en ∈ pairs, netStatus 200 en.1 = FetchOutcome.response en.2) ∧
        cacheEntries (installHandler (netStatus 200) usedWorld).2.storage CACHE_NAME =
          (cacheEntries usedWorld.storage CACHE_NAME).filter
            (fun x => !ASSETS_TO_CACHE.any (fun u => requestMatches (assetRequest u) x.1)) ++
            pairs ∧
        (cacheEntries usedWorld.storage CACHE_NAME = [] →
          (cacheEntries (installHandler (netStatus 200) usedWorld).2.storage CACHE_NAME).map
              Prod.fst =
            ASSETS_TO_CACHE.map assetRequest)) :=
  ⟨⟨fun _ _ => ⟨{ status := 200, body := "body" }, rfl, by decide, by decide, rfl⟩, rfl⟩,
    C2_install_caches_listed_assets (netStatus 200) usedWorld
      (fun _ _ => ⟨{ status := 200, body := "body" }, rfl, by decide, by decide, rfl⟩) rfl⟩

/-- Claim C2, as stated, fails: with all six fetches answered by status 200,
a cache that held another entry before the install still holds it afterwards;
and the cache holds none of the six paths after the install when every fetch
is answered by a response but one of them has status 404, or status 206, or
carries `Vary: *`, and when the storage quota is used up. -/
theorem C2_counterexample :
    (ASSETS_TO_CACHE.map (fun u => netStatus 200 (assetRequest u)) =
        List.replicate 6 (FetchOutcome.response { status := 200, body := "body" }) ∧
      (installHandler (netStatus 200) usedWorld).1 = Settled.fulfilled () ∧
      ({ url := "/static/img/rings.png", method := "GET" } : Request) ∈
        (cacheEntries (installHandler (netStatus 200) usedWorld).2.storage CACHE_NAME).map
          Prod.fst ∧
      "/static/img/rings.png" ∉ ASSETS_TO_CACHE) ∧
    (ASSETS_TO_CACHE.map (fun u => netStatusAt "/static/js/fuse.min.js" 404 (assetRequest u)) =
        [FetchOutcome.response { status := 200, body := "body" },
         FetchOutcome.response { status := 200, body := "body" },
         FetchOutcome.response { status := 200, body := "body" },
         FetchOutcome.response { status := 200, body := "body" },
         FetchOutcome.response { status := 404, body := "body" },
         FetchOutcome.response { status := 200, body := "body" }] ∧
      cacheEntries (installHandler (netStatusAt "/static/js/fuse.min.js" 404)
        freshWorld).2.storage CACHE_NAME = []) ∧
    (ASSETS_TO_CACHE.map (fun u => netStatusAt "/static/js/fuse.min.js" 206 (assetRequest u)) =
        [FetchOutcome.response { status := 200, body := "body" },
         FetchOutcome.response { status := 200, body := "body" },
         FetchOutcome.response { status := 200, body := "body" },
         FetchOutcome.response { status := 200, body := "body" },
         FetchOutcome.response { status := 206, body := "body" },
         FetchOutcome.response { status := 200, body := "body" }] ∧
      cacheEntries (installHandler (netStatusAt "/static/js/fuse.min.js" 206)
        freshWorld).2.storage CACHE_NAME = []) ∧
    (ASSETS_TO_CACHE.map (fun u => netVaryStarAt "/static/js/fuse.min.js" (assetRequest u)) =
        [FetchOutcome.response { status := 200, body := "body" },
         FetchOutcome.response { status := 200, body := "body" },
         FetchOutcome.response { status := 200, body := "body" },
         FetchOutcome.response { status := 200, body := "body" },
         FetchOutcome.response { status := 200, body := "body", varyStar := true },
         FetchOutcome.response { status := 200, body := "body" }] ∧
      cacheEntries (installHandler (netVaryStarAt "/static/js/fuse.min.js")
        freshWorld).2.storage CACHE_NAME = []) ∧
    (ASSETS_TO_CACHE.map (fun u => netStatus 200 (assetRequest u)) =
        List.replicate 6 (FetchOutcome.response { status := 200, body := "body" }) ∧
      fullWorld.quotaExceeded = true ∧
      cacheEntries (installHandler (netStatus 200) fullWorld).2.storage CACHE_NAME = []) := by
  decide

/-- Claim C8: if the fetch of at least one of the six listed assets fails, the
work the install handler hands to `waitUntil` fails, `skipWaiting` is not
signalled, and the entries of the cache named `wedding-game-v1` are the ones
it had before: none of the listed assets is added. -/
theorem C8_install_fails_when_asset_fetch_fails (net : Network) (w : World)
    (h : ∃ u ∈ ASSETS_TO_CACHE, ∃ e, net (assetRequest u) = FetchOutcome.failure e) :
    (∃ reason, (installHandler net w).1 = Settled.rejected reason) ∧
      (installHandler net w).2.skipWaitingCalled = w.skipWaitingCalled ∧
      cacheEntries (installHandler net w).2.storage CACHE_NAME =
        cacheEntries w.storage CACHE_NAME := by
  rw [installHandler_failure net w h]
  exact ⟨⟨_, rfl⟩, rfl, cacheEntries_openedStorage _ _⟩

theorem C8_install_fails_when_asset_fetch_fails_witness :
    (∃ u ∈ ASSETS_TO_CACHE, ∃ e,
      netOfflineAt "/static/js/fuse.min.js" (assetRequest u) = FetchOutcome.failure e) ∧
    ((∃ reason, (installHandler (netOfflineAt "/static/js/fuse.min.js") freshWorld).1 =
        Settled.rejected reason) ∧
      (installHandler (netOfflineAt "/static/js/fuse.min.js") freshWorld).2.skipWaitingCalled =
        freshWorld.skipWaitingCalled ∧
      cacheEntries (installHandler (netOfflineAt "/static/js/fuse.min.js")
          freshWorld).2.storage CACHE_NAME =
        cacheEntries freshWorld.storage CACHE_NAME) :=
  ⟨⟨"/static/js/fuse.min.js", by decide, JsError.networkError "offline", by decide⟩,
    C8_install_fails_when_asset_fetch_fails (netOfflineAt "/static/js/fuse.min.js") freshWorld
      ⟨"/static/js/fuse.min.js", by decide, JsError.networkError "offline", by decide⟩⟩

end WeddingGame
